import Mathlib

/-!
Verification development for the chatbot test harness (`src/bot_tester.py`).

The file shallowly embeds the core of the harness:

* a model of loosely-typed Python/JSON values (`JVal`) together with the
  Python primitives the source uses on them (membership test `in`,
  subscription, `len`, truthiness), where operations that raise in Python
  return `Except PyExc`;
* a small regular-expression engine (Brzozowski derivatives) covering
  exactly the constructs used by the patterns of `analyze_sql_complexity`
  (literal characters, `.`, `\s`, `+`, `*`, alternation), with search
  semantics matching the Boolean use of Python `re.search`;
* the SQL-complexity classifier `analyze_sql_complexity`;
* the `ChatbotClient` operations: the completion phase of `poll_answer`,
  `submit_question` (instrumented with re-authentication / request
  counters), and `extract_data_from_response`;
* the batch orchestrator `run_queries` with its per-question
  success / timeout / error rows and `save_checkpoint` bookkeeping.

Modelling conventions, recorded once here:

* Machine floats of the source (latency estimates, response times) are
  modelled as `Rat`; every float literal of the source is an exactly
  representable value, and no claim depends on rounding, so the
  `round(x, 2)` display rounding of the source is not modelled.
* Wall-clock time is abstracted to one time step per iteration of the
  polling loop (the source sleeps `interval = 1` second per iteration);
  the fast 0.1-second first-response measurement phase of `poll_answer`
  only measures `first_response_time` and is abstracted into a parameter.
* Network interactions are oracles: a function from the attempt number to
  the response the server gives.
-/

/-- A loosely-typed Python value, as produced by `response.json()`.
Numbers are modelled as `Int`; no claim involves fractional JSON numbers. -/
inductive JVal : Type
  | null : JVal
  | bool : Bool → JVal
  | num : Int → JVal
  | str : String → JVal
  | arr : List JVal → JVal
  | obj : List (String × JVal) → JVal

/-- A raised Python exception: `TimeoutError` is distinguished from every
other exception class because `run_queries` catches it by a dedicated
`except TimeoutError` clause before the generic `except Exception`. -/
inductive PyExc : Type
  | timeoutError : String → PyExc
  | exc : String → PyExc

/-- Python truthiness (`if x:`) for the modelled values. -/
def pyTruthy : JVal → Bool
  | .null => false
  | .bool b => b
  | .num n => n != 0
  | .str s => s != ""
  | .arr xs => !xs.isEmpty
  | .obj fs => !fs.isEmpty

/-- First binding of a key in a Python dict modelled as an association list. -/
def lookupKey (k : String) : List (String × JVal) → Option JVal
  | [] => none
  | (k', v) :: rest => if k' = k then some v else lookupKey k rest

/-- Does `v` equal the Python string `k`?  Python `==` between a `str` and a
value of any other type is `False`. -/
def jvalEqStr (v : JVal) (k : String) : Bool :=
  match v with
  | .str s => s == k
  | _ => false

/-- Does the character list `pre` start the character list `l`? -/
def leadsWith : List Char → List Char → Bool
  | [], _ => true
  | _ :: _, [] => false
  | a :: as, b :: bs => a == b && leadsWith as bs

/-- Does `needle` occur as a contiguous run inside `hay`? -/
def strHas (needle : List Char) : List Char → Bool
  | [] => leadsWith needle []
  | c :: cs => leadsWith needle (c :: cs) || strHas needle cs

/-- Python `k in v` for a string key `k`: dict key lookup, list membership,
substring test on strings; `in` on other values raises `TypeError`. -/
def pyIn (k : String) : JVal → Except PyExc Bool
  | .obj fs => .ok (lookupKey k fs).isSome
  | .arr xs => .ok (xs.any (fun v => jvalEqStr v k))
  | .str s => .ok (strHas k.data s.data)
  | _ => .error (.exc "TypeError: argument is not iterable")

/-- Python `v[k]` for a string key `k`: dict subscription, raising
`KeyError` when absent and `TypeError` on non-dict values. -/
def pyGetKey (v : JVal) (k : String) : Except PyExc JVal :=
  match v with
  | .obj fs =>
    match lookupKey k fs with
    | some x => .ok x
    | none => .error (.exc ("KeyError: " ++ k))
  | _ => .error (.exc "TypeError: value is not subscriptable by str")

/-- Python `v[0]`: list indexing (also single-character string indexing),
raising `IndexError` when out of range and `TypeError` otherwise. -/
def pyIndexZero (v : JVal) : Except PyExc JVal :=
  match v with
  | .arr (x :: _) => .ok x
  | .arr [] => .error (.exc "IndexError: list index out of range")
  | .str s =>
    match s.data with
    | c :: _ => .ok (.str (String.mk [c]))
    | [] => .error (.exc "IndexError: string index out of range")
  | _ => .error (.exc "TypeError: value is not subscriptable by int")

/-- Python `len(v)`: length of a list or string, number of keys of a dict;
`TypeError` on other values. -/
def pyLen (v : JVal) : Except PyExc Nat :=
  match v with
  | .arr xs => .ok xs.length
  | .str s => .ok s.length
  | .obj fs => .ok fs.length
  | _ => .error (.exc "TypeError: value has no len")

/-! ## Regular expressions

A minimal regex engine by Brzozowski derivatives, covering exactly the
constructs appearing in the patterns of `analyze_sql_complexity`:
literal characters, `.` (any character except newline), `\s` (whitespace
class), concatenation, alternation, `r*` and `r+` (as `r · r*`).
`reSearch` is the Boolean reading of Python `re.search`: does any
contiguous run of the subject match the pattern? -/

/-- Regex abstract syntax. -/
inductive Regex : Type
  | emptyset : Regex
  | epsilon : Regex
  | char : Char → Regex
  | anychar : Regex
  | wschar : Regex
  | seq : Regex → Regex → Regex
  | alt : Regex → Regex → Regex
  | star : Regex → Regex

/-- Python `\s` on the relevant range: space, tab, newline, carriage
return, vertical tab, form feed. -/
def pyWs (c : Char) : Bool :=
  c.toNat == 32 || c.toNat == 9 || c.toNat == 10 || c.toNat == 13 ||
  c.toNat == 11 || c.toNat == 12

/-- Does the regex accept the empty string? -/
def Regex.nullable : Regex → Bool
  | .emptyset => false
  | .epsilon => true
  | .char _ => false
  | .anychar => false
  | .wschar => false
  | .seq a b => a.nullable && b.nullable
  | .alt a b => a.nullable || b.nullable
  | .star _ => true

/-- Concatenation with on-the-fly simplification (keeps derivatives small). -/
def mkSeq : Regex → Regex → Regex
  | .emptyset, _ => .emptyset
  | _, .emptyset => .emptyset
  | .epsilon, r => r
  | r, .epsilon => r
  | a, b => .seq a b

/-- Alternation with on-the-fly simplification. -/
def mkAlt : Regex → Regex → Regex
  | .emptyset, r => r
  | r, .emptyset => r
  | a, b => .alt a b

/-- Brzozowski derivative of a regex by one character. -/
def Regex.deriv : Regex → Char → Regex
  | .emptyset, _ => .emptyset
  | .epsilon, _ => .emptyset
  | .char c, a => if a = c then .epsilon else .emptyset
  | .anychar, a => if a = '\n' then .emptyset else .epsilon
  | .wschar, a => if pyWs a then .epsilon else .emptyset
  | .seq r1 r2, a =>
    if r1.nullable then mkAlt (mkSeq (r1.deriv a) r2) (r2.deriv a)
    else mkSeq (r1.deriv a) r2
  | .alt r1 r2, a => mkAlt (r1.deriv a) (r2.deriv a)
  | .star r, a => mkSeq (r.deriv a) (.star r)

/-- Does some initial segment of `l` match `r`? -/
def reMatchHere : Regex → List Char → Bool
  | r, [] => r.nullable
  | r, c :: cs => r.nullable || reMatchHere (r.deriv c) cs

/-- Boolean Python `re.search`: does the pattern match at some position? -/
def reSearch (r : Regex) : List Char → Bool
  | [] => r.nullable
  | c :: cs => reMatchHere r (c :: cs) || reSearch r cs

/-- The regex matching the literal string `s`. -/
def rstr (s : String) : Regex :=
  s.data.foldr (fun c r => Regex.seq (Regex.char c) r) Regex.epsilon

/-- `r+` as `r · r*`. -/
def rplus (r : Regex) : Regex := .seq r (.star r)

/-- The `\s+` regex. -/
def rws1 : Regex := rplus .wschar

/-- The `.*` regex. -/
def rdotStar : Regex := .star .anychar

/-- The `.+` regex. -/
def rdotPlus : Regex := rplus .anychar

/-- The `case\s+when` fragment of the nested-CASE pattern. -/
def caseWhen : Regex := .seq (rstr "case") (.seq rws1 (rstr "when"))

/-- The `order\s+by` regex. -/
def orderBy : Regex := .seq (rstr "order") (.seq rws1 (rstr "by"))

/-- The `group\s+by` regex. -/
def groupBy : Regex := .seq (rstr "group") (.seq rws1 (rstr "by"))

/-- The `very_complex_patterns` list of `analyze_sql_complexity`:
`with\s+.\s+as`, `over\s\(`, `(select.+from.+)\s+select`,
`join.*join.*join`, `case\s+when.*case\s+when`,
`union|intersect|except`. -/
def very_complex_patterns : List Regex := [
  .seq (rstr "with") (.seq rws1 (.seq .anychar (.seq rws1 (rstr "as")))),
  .seq (rstr "over") (.seq .wschar (.char '(')),
  .seq (rstr "select") (.seq rdotPlus (.seq (rstr "from")
    (.seq rdotPlus (.seq rws1 (rstr "select"))))),
  .seq (rstr "join") (.seq rdotStar (.seq (rstr "join")
    (.seq rdotStar (rstr "join")))),
  .seq caseWhen (.seq rdotStar caseWhen),
  .alt (rstr "union") (.alt (rstr "intersect") (rstr "except"))]

/-- The `complex_patterns` list: `join`, `group\s+by`, `having`,
`order\s+by.*order\s+by`, `distinct`,
`sum\(|avg\(|count\(|max\(|min\(`. -/
def complex_patterns : List Regex := [
  rstr "join",
  groupBy,
  rstr "having",
  .seq orderBy (.seq rdotStar orderBy),
  rstr "distinct",
  .alt (rstr "sum(") (.alt (rstr "avg(") (.alt (rstr "count(")
    (.alt (rstr "max(") (rstr "min("))))]

/-- The `simple_patterns` list: `where`, `order\s+by`, `limit`,
`select.*from`. -/
def simple_patterns : List Regex := [
  rstr "where",
  orderBy,
  rstr "limit",
  .seq (rstr "select") (.seq rdotStar (rstr "from"))]

/-- The lowercase expansion of one character under Python `str.lower`.
On ASCII this is `Char.toLower` (lowercasing exactly `A`–`Z`).  U+0130,
LATIN CAPITAL LETTER I WITH DOT ABOVE (code point 304), is the one
character whose unconditional lowercase mapping is longer than one
character: `i` followed by U+0307 COMBINING DOT ABOVE (code point 775,
Unicode SpecialCasing) — the way `str.lower` can change the length of a
string.  Non-ASCII characters other than U+0130 are kept fixed here,
which is not faithful for them; every theorem quantifying over inputs
therefore carries an explicit all-ASCII hypothesis, and concrete inputs
stay inside the faithful fragment (ASCII plus U+0130). -/
def pyLowerChar (c : Char) : List Char :=
  if c.toNat = 304 then ['i', Char.ofNat 775] else [Char.toLower c]

/-- Python `str.lower`: the concatenation of the per-character lowercase
expansions; the result can be longer than the input. -/
def pyLower (s : String) : String := String.mk (s.data.flatMap pyLowerChar)

/-- Drop Python whitespace from both ends of a character list. -/
def pyStripList (l : List Char) : List Char :=
  ((l.dropWhile pyWs).reverse.dropWhile pyWs).reverse

/-- Python `str.strip()` (no arguments: strips whitespace). -/
def pyStrip (s : String) : String := String.mk (pyStripList s.data)

/-- Run one tier of the classifier: is some pattern of the list found in
the lowercased SQL text? -/
def tierMatches (patterns : List Regex) (sql_lower : String) : Bool :=
  patterns.any (fun p => reSearch p sql_lower.data)

/-- The SQL-complexity classifier of the source
(`analyze_sql_complexity`): empty or sub-10-character text is `No SQL`,
then the three pattern tiers are tested in order, with a `Simple SQL`
fallback.  Latencies (Python floats 0.5, 3.0, 5.0, 8.0) are modelled as
rationals. -/
def analyze_sql_complexity (sql_query : String) : Rat × String :=
  if sql_query = "" ∨ (pyStrip sql_query).length < 10 then
    (1/2, "No SQL")
  else
    if tierMatches very_complex_patterns (pyLower sql_query) then
      (8, "Very Complex SQL")
    else if tierMatches complex_patterns (pyLower sql_query) then
      (5, "Complex SQL")
    else if tierMatches simple_patterns (pyLower sql_query) then
      (3, "Simple SQL")
    else
      (3, "Simple SQL")

/-! ## ChatbotClient operations -/

/-- The completion test of the polling loop of `ChatbotClient.poll_answer`:
`"answers" in data and len(data["answers"]) > 0 and "text" in
data["answers"][0] and data["answers"][0]["text"]`.  Payload shapes on
which the chained subscriptions would raise inside the `try` are
behaviourally equivalent to `False` (the exception is caught and the loop
continues), so they are folded into the `false` branches here. -/
def answer_ready (data : JVal) : Bool :=
  match data with
  | .obj fields =>
    match lookupKey "answers" fields with
    | some (.arr (first :: _)) =>
      match first with
      | .obj afields =>
        match lookupKey "text" afields with
        | some t => pyTruthy t
        | none => false
      | _ => false
    | _ => false
  | _ => false

/-- One poll response: HTTP status code and decoded JSON body. -/
def PollResponses : Type := Nat → Nat × JVal

/-- The completion phase of `ChatbotClient.poll_answer`
(`while (time.time() - start_time) < timeout`), with one time step per
iteration and `fuel = timeout - elapsed` remaining steps.  A 200 response
whose body passes `answer_ready` returns `(data, first_response_time,
elapsed)`.  Any other response — a 202, a 200 without a ready answer, or
a non-success status whose `raise_for_status` exception is caught by the
`except` clause that logs and keeps going — continues the loop.  When the
window is exhausted a `TimeoutError` is raised. -/
def poll_answer_go (responses : PollResponses) (timeout frt : Nat) :
    Nat → Nat → Except PyExc (JVal × Nat × Nat)
  | _, 0 =>
    .error (.timeoutError
      ("Polling timed out after " ++ toString timeout ++ " seconds"))
  | elapsed, fuel + 1 =>
    if (responses elapsed).1 == 200 && answer_ready (responses elapsed).2 then
      .ok ((responses elapsed).2, frt, elapsed)
    else poll_answer_go responses timeout frt (elapsed + 1) fuel

/-- `ChatbotClient.poll_answer` from the start of the completion phase:
the fast 0.1-second measurement phase only determines
`first_response_time` (`frt`), which is taken as a parameter. -/
def poll_answer (responses : PollResponses) (timeout frt : Nat) :
    Except PyExc (JVal × Nat × Nat) :=
  poll_answer_go responses timeout frt 0 timeout

/-- The default of the `timeout` parameter of `ChatbotClient.poll_answer`
(`def poll_answer(self, question_id, timeout=55, interval=1)`), used by
the `run_queries` call site `client.poll_answer(question_id)`. -/
def poll_answer_default_timeout : Nat := 55

/-- A response of the questions endpoint to one submit attempt: a 2xx
response with a question id, a non-2xx status (on which
`raise_for_status` raises `HTTPError`), or a non-HTTP failure. -/
inductive HttpResp : Type
  | ok : String → HttpResp
  | httpStatus : Nat → HttpResp
  | netError : String → HttpResp

/-- `max_retries` default of `ChatbotClient.submit_question`. -/
def max_retries : Nat := 3

/-- The retry loop of `ChatbotClient.submit_question`, instrumented with
counters.  Arguments: remaining fuel (`max_retries + 1 - retries`), the
`retries` counter of the source, re-authentications performed so far, and
requests sent so far (the attempt number indexing the transport oracle).
Result: the outcome together with the final `retries` counter, the total
re-authentication count, and the total request count.  The session is
assumed fresh at entry (`check_session_age` returns `True` without
refreshing), so `refresh_session` runs exactly when `retries > 0`. -/
def submit_question_go (transport : Nat → HttpResp) :
    Nat → Nat → Nat → Nat → Except PyExc String × Nat × Nat × Nat
  | 0, retries, reauths, requests =>
    (.error (.exc "Maximum retries exceeded when submitting question"),
      retries, reauths, requests)
  | fuel + 1, retries, reauths, requests =>
    let reauths' := if 0 < retries then reauths + 1 else reauths
    match transport requests with
    | .ok id => (.ok id, retries, reauths', requests + 1)
    | .httpStatus _ =>
      if retries + 1 ≤ max_retries then
        submit_question_go transport fuel (retries + 1) reauths' (requests + 1)
      else
        (.error (.exc "HTTPError"), retries + 1, reauths', requests + 1)
    | .netError m =>
      if retries + 1 ≤ max_retries then
        submit_question_go transport fuel (retries + 1) reauths' (requests + 1)
      else
        (.error (.exc ("Error submitting question after " ++
          toString (max_retries + 1) ++ " attempts: " ++ m)),
          retries + 1, reauths', requests + 1)

/-- `ChatbotClient.submit_question` run from a fresh session, with its
instrumentation counters. -/
def submit_question_run (transport : Nat → HttpResp) :
    Except PyExc String × Nat × Nat × Nat :=
  submit_question_go transport (max_retries + 1) 0 0 0

/-- `ChatbotClient.submit_question`: just the outcome. -/
def submit_question (transport : Nat → HttpResp) : Except PyExc String :=
  (submit_question_run transport).1

/-- The texts collected from an `insights` list: plain strings verbatim,
the `text` field of dict elements that have one, everything else skipped
(`isinstance` checks of the source). -/
def collectInsightTexts : List JVal → List JVal
  | [] => []
  | .str s :: rest => .str s :: collectInsightTexts rest
  | .obj fs :: rest =>
    match lookupKey "text" fs with
    | some v => v :: collectInsightTexts rest
    | none => collectInsightTexts rest
  | _ :: rest => collectInsightTexts rest

/-- Python `"\n".join(xs)`: raises `TypeError` when some element is not a
string. -/
def pyJoinNewline : List JVal → Except PyExc String
  | [] => .ok ""
  | [.str s] => .ok s
  | .str s :: x :: rest => do
    let tail ← pyJoinNewline (x :: rest)
    .ok (s ++ "\n" ++ tail)
  | _ => .error (.exc "TypeError: sequence item is not str")

/-- `ChatbotClient.extract_data_from_response`: pulls
`(interpretation, sql, insights)` out of a raw answer payload, defaulting
each to the empty string, and mirroring the guard structure of the
source line by line. -/
def extract_data_from_response (response_data : JVal) :
    Except PyExc (JVal × JVal × JVal) := do
  let hasAnswers ← pyIn "answers" response_data
  if hasAnswers then
    let answersVal ← pyGetKey response_data "answers"
    let nAnswers ← pyLen answersVal
    if 0 < nAnswers then
      let answer ← pyIndexZero answersVal
      let hasSql ← pyIn "sqlQueries" answer
      let sql ←
        if hasSql then do
          let sqlList ← pyGetKey answer "sqlQueries"
          let nSql ← pyLen sqlList
          if 0 < nSql then pyIndexZero sqlList
          else pure (JVal.str "")
        else pure (JVal.str "")
      let hasQueries ← pyIn "queries" answer
      let interpretation ←
        if hasQueries then do
          let queriesList ← pyGetKey answer "queries"
          let nQueries ← pyLen queriesList
          if 0 < nQueries then do
            let query ← pyIndexZero queriesList
            let hasExpl ← pyIn "explanation" query
            if hasExpl then pyGetKey query "explanation"
            else pure (JVal.str "")
          else pure (JVal.str "")
        else pure (JVal.str "")
      let hasInsights ← pyIn "insights" answer
      let insights ←
        if hasInsights then do
          let insightsVal ← pyGetKey answer "insights"
          match insightsVal with
          | .str s => pure (JVal.str s)
          | .arr xs =>
            if 0 < xs.length then do
              let joined ← pyJoinNewline (collectInsightTexts xs)
              pure (JVal.str joined)
            else pure (JVal.str "")
          | _ => pure (JVal.str "")
        else pure (JVal.str "")
      pure (interpretation, sql, insights)
    else
      pure (JVal.str "", JVal.str "", JVal.str "")
  else
    pure (JVal.str "", JVal.str "", JVal.str "")

/-- The answer-text expression of `run_queries`:
`result["answers"][0]["text"] if "answers" in result and
len(result["answers"]) > 0 else "No answer provided"`. -/
def answer_text_of (result : JVal) : Except PyExc JVal := do
  let hasAnswers ← pyIn "answers" result
  if hasAnswers then
    let answersVal ← pyGetKey result "answers"
    let nAnswers ← pyLen answersVal
    if 0 < nAnswers then do
      let firstAnswer ← pyIndexZero answersVal
      pyGetKey firstAnswer "text"
    else pure (JVal.str "No answer provided")
  else pure (JVal.str "No answer provided")

/-! ## Batch orchestrator (`run_queries`) -/

/-- `analyze_sql_complexity` as invoked by `run_queries` on the extracted
`sql` value, which is a `JVal`: a falsy argument short-circuits at
`if not sql_query` before any `str` method is touched, a truthy
non-string raises `AttributeError` at `sql_query.strip()`. -/
def analyze_sql_complexity_jval (v : JVal) : Except PyExc (Rat × String) :=
  match v with
  | .str s => .ok (analyze_sql_complexity s)
  | other =>
    if pyTruthy other then .error (.exc "AttributeError: no method strip")
    else .ok (1/2, "No SQL")

/-- One row of the `results_df` DataFrame of `run_queries`.  The three
trailing assessment columns are left for the human reviewer.  Cells that
the source fills from the payload hold arbitrary Python values (`JVal`);
the time columns are numeric. -/
structure ResultRow : Type where
  question : String
  answer : JVal
  insights : JVal
  interpretation : JVal
  sql : JVal
  api_response_time : Rat
  total_response_time : Rat
  estimated_first_response : Rat
  difficulty : String
  passFail : String
  accuracy : String

/-- The row appended on the success path of `run_queries`, build from the
polled payload; any exception of the chain (answer-text subscription,
extraction, complexity analysis) propagates to the handlers. -/
def success_row (question : String) (payload : JVal) (frt trt : Nat) :
    Except PyExc ResultRow := do
  let answerText ← answer_text_of payload
  let extracted ← extract_data_from_response payload
  let analyzed ← analyze_sql_complexity_jval extracted.2.1
  pure {
    question := question
    answer := answerText
    insights := extracted.2.2
    interpretation := extracted.1
    sql := extracted.2.1
    api_response_time := (frt : Rat)
    total_response_time := (trt : Rat)
    estimated_first_response := (frt : Rat) + analyzed.1
    difficulty := ""
    passFail := ""
    accuracy := "" }

/-- The row appended by the `except TimeoutError` handler of
`run_queries`: the constant 55 in the three time columns and `Skip` in
the Pass/Fail column. -/
def timeout_row (question : String) : ResultRow := {
  question := question
  answer := .str "TIMEOUT: Question processing exceeded 55 seconds"
  insights := .str ""
  interpretation := .str ""
  sql := .str ""
  api_response_time := 55
  total_response_time := 55
  estimated_first_response := 55
  difficulty := ""
  passFail := "Skip"
  accuracy := "" }

/-- The row appended by the generic `except Exception` handler of
`run_queries`: zeroes in the three time columns and `Fail` in the
Pass/Fail column. -/
def error_row (question : String) (msg : String) : ResultRow := {
  question := question
  answer := .str ("ERROR: " ++ msg)
  insights := .str ""
  interpretation := .str ""
  sql := .str ""
  api_response_time := 0
  total_response_time := 0
  estimated_first_response := 0
  difficulty := ""
  passFail := "Fail"
  accuracy := "" }

/-- The environment one question is processed against: the submit
transport oracle, the poll responses, and the measured first-response
time of the fast polling phase. -/
structure QuestionEnv : Type where
  transport : Nat → HttpResp
  responses : PollResponses
  frt : Nat

/-- The body of the per-question `try` block of `run_queries`: submit the
question, poll with the default 55-second timeout, and build the success
row. -/
def question_attempt (question : String) (env : QuestionEnv) :
    Except PyExc ResultRow := do
  let _qid ← submit_question env.transport
  let polled ← poll_answer env.responses poll_answer_default_timeout env.frt
  success_row question polled.1 polled.2.1 polled.2.2

/-- One iteration of the question loop of `run_queries`, with its two
`except` handlers: `TimeoutError` is converted to the timeout row,
every other exception to the error row. -/
def process_question (question : String) (env : QuestionEnv) : ResultRow :=
  match question_attempt question env with
  | .ok row => row
  | .error (.timeoutError _) => timeout_row question
  | .error (.exc m) => error_row question m

/-- The `for i in range(start_index, len(questions_list))` loop of
`run_queries` over the remaining questions, threading the absolute index
`i` and the accumulated DataFrame, and recording each
`save_checkpoint(i + 1, results_df)` call.  Returns the final DataFrame
and the checkpoint trace in order. -/
def run_queries_loop (envs : Nat → QuestionEnv) :
    List String → Nat → List ResultRow →
    List ResultRow × List (Nat × List ResultRow)
  | [], _, df => (df, [])
  | question :: rest, i, df =>
    let df' := df ++ [process_question question (envs i)]
    let result := run_queries_loop envs rest (i + 1) df'
    (result.1, (i + 1, df') :: result.2)

/-- `run_queries`: `None` when the initial login fails (the run aborts
with no questions processed), otherwise the loop over
`questions_list[start_index:]` starting from the carried-over DataFrame,
followed by the `finally` checkpoint
`save_checkpoint(len(questions_list), results_df)`.  Result: the final
DataFrame and the full checkpoint trace. -/
def run_queries (login_ok : Bool) (questions_list : List String)
    (envs : Nat → QuestionEnv) (start_index : Nat)
    (initial_df : List ResultRow) :
    Option (List ResultRow × List (Nat × List ResultRow)) :=
  if login_ok then
    let result := run_queries_loop envs (questions_list.drop start_index)
      start_index initial_df
    some (result.1, result.2 ++ [(questions_list.length, result.1)])
  else
    none

/-! ## Derived notions and concrete witnesses used by the verification -/

/-- Does the poll response at step `k` complete the poll loop
(status 200 with a ready answer)? -/
def isCompleteAt (responses : PollResponses) (k : Nat) : Prop :=
  ((responses k).1 == 200 && answer_ready (responses k).2) = true

instance (responses : PollResponses) (k : Nat) :
    Decidable (isCompleteAt responses k) := by
  unfold isCompleteAt
  infer_instance

/-- The rows the question loop of `run_queries` appends for the question
list `l` starting at absolute index `i`. -/
def rowsFrom (envs : Nat → QuestionEnv) : List String → Nat → List ResultRow
  | [], _ => []
  | q :: rest, i => process_question q (envs i) :: rowsFrom envs rest (i + 1)

/-- A well-formed completed answer payload used as a concrete witness. -/
def sampleAnswerPayload : JVal :=
  .obj [("answers", .arr [.obj [("text", .str "42 units were sold.")]])]

/-- A question environment in which submission succeeds but the answer
never becomes ready: polling runs into its timeout. -/
def envTimeout : QuestionEnv :=
  { transport := fun _ => .ok "q-1"
    responses := fun _ => (202, .obj [])
    frt := 2 }

/-- A question environment in which every submit attempt fails with a
non-HTTP error, so `submit_question` raises after its retries. -/
def envError : QuestionEnv :=
  { transport := fun _ => .netError "boom"
    responses := fun _ => (202, .obj [])
    frt := 0 }

/-- A question environment in which submission succeeds and the answer
becomes ready at the fourth completion poll. -/
def envSuccess : QuestionEnv :=
  { transport := fun _ => .ok "q-1"
    responses := fun k => if k == 3 then (200, sampleAnswerPayload) else (202, .obj [])
    frt := 1 }

/-- Poll responses delivering a non-success 500 status first and a
completed answer immediately afterwards. -/
def pollAfter500 : PollResponses :=
  fun k => if k == 0 then (500, .obj []) else (200, sampleAnswerPayload)

/-- Poll responses whose answer becomes ready at step 100, within the
300-second window the specification describes but beyond the 55-second
default of the source. -/
def pollReadyAt100 : PollResponses :=
  fun k => if k == 100 then (200, sampleAnswerPayload) else (202, .obj [])

/-- Is every character of the string ASCII (code point below 128)?  On
such strings the `pyLower` model coincides exactly with Python
`str.lower`. -/
def isAsciiOnly (s : String) : Bool :=
  s.data.all (fun c => decide (c.toNat < 128))

/-- U+0130 followed by eight `X`: nine characters, but its Python
lowercase form `i`, U+0307, `x`*8 has ten — the string crosses the
classifier's ten-character guard when lowercased. -/
def dottedIsample : String :=
  String.mk (Char.ofNat 304 :: List.replicate 8 'X')

/-! ## Supporting lemmas -/

theorem char_toNat_ofNat {n : Nat} (h : n < 55296) : (Char.ofNat n).toNat = n := by
  have hv : n.isValidChar := Or.inl h
  simp [Char.ofNat, hv, Char.ofNatAux, Char.toNat, UInt32.toNat]

theorem pyWsNat_false_of_ge {n : Nat} (h : 65 ≤ n) :
    (n == 32 || n == 9 || n == 10 || n == 13 || n == 11 || n == 12) = false := by
  simp only [Bool.or_eq_false_iff, beq_eq_false_iff_ne, ne_eq]
  omega

theorem pyWs_toLower (c : Char) : pyWs (Char.toLower c) = pyWs c := by
  unfold Char.toLower
  by_cases h : c.toNat ≥ 65 ∧ c.toNat ≤ 90
  · rw [if_pos h]
    have ht : (Char.ofNat (c.toNat + 32)).toNat = c.toNat + 32 :=
      char_toNat_ofNat (by omega)
    unfold pyWs
    rw [ht]
    rw [pyWsNat_false_of_ge (by omega), pyWsNat_false_of_ge (by omega)]
  · rw [if_neg h]

theorem toLower_idem (c : Char) : Char.toLower (Char.toLower c) = Char.toLower c := by
  unfold Char.toLower
  by_cases h : c.toNat ≥ 65 ∧ c.toNat ≤ 90
  · rw [if_pos h]
    have ht : (Char.ofNat (c.toNat + 32)).toNat = c.toNat + 32 :=
      char_toNat_ofNat (by omega)
    rw [if_neg (by omega)]
  · rw [if_neg h, if_neg h]

theorem dropWhile_pyWs_map_toLower (l : List Char) :
    (l.map Char.toLower).dropWhile pyWs = (l.dropWhile pyWs).map Char.toLower := by
  rw [List.dropWhile_map]
  have hfun : (pyWs ∘ Char.toLower) = pyWs := funext pyWs_toLower
  rw [hfun]

theorem pyStripList_map_toLower (l : List Char) :
    pyStripList (l.map Char.toLower) = (pyStripList l).map Char.toLower := by
  unfold pyStripList
  rw [dropWhile_pyWs_map_toLower, ← List.map_reverse, dropWhile_pyWs_map_toLower,
    List.map_reverse]

theorem pyLowerChar_of_ascii (c : Char) (h : c.toNat < 128) :
    pyLowerChar c = [Char.toLower c] := by
  unfold pyLowerChar
  rw [if_neg (by omega)]

theorem flatMap_pyLowerChar_of_ascii :
    ∀ l : List Char, l.all (fun c => decide (c.toNat < 128)) = true →
    l.flatMap pyLowerChar = l.map Char.toLower := by
  intro l
  induction l with
  | nil =>
    intro _
    rfl
  | cons c rest ih =>
    intro h
    rw [List.all_cons, Bool.and_eq_true] at h
    rw [List.flatMap_cons, List.map_cons,
      pyLowerChar_of_ascii c (of_decide_eq_true h.1), ih h.2]
    rfl

theorem pyLower_of_ascii (s : String) (h : isAsciiOnly s = true) :
    pyLower s = String.mk (s.data.map Char.toLower) := by
  unfold pyLower
  rw [flatMap_pyLowerChar_of_ascii s.data h]

theorem toLower_ascii (c : Char) (h : c.toNat < 128) :
    (Char.toLower c).toNat < 128 := by
  unfold Char.toLower
  by_cases hc : c.toNat ≥ 65 ∧ c.toNat ≤ 90
  · rw [if_pos hc]
    have ht : (Char.ofNat (c.toNat + 32)).toNat = c.toNat + 32 :=
      char_toNat_ofNat (by omega)
    omega
  · rw [if_neg hc]
    exact h

theorem map_toLower_ascii (l : List Char)
    (h : l.all (fun c => decide (c.toNat < 128)) = true) :
    (l.map Char.toLower).all (fun c => decide (c.toNat < 128)) = true := by
  rw [List.all_map]
  rw [List.all_eq_true] at h ⊢
  intro c hc
  exact decide_eq_true (toLower_ascii c (of_decide_eq_true (h c hc)))

@[simp] theorem except_ok_bind {ε α β : Type} (a : α) (f : α → Except ε β) :
    (Except.ok a : Except ε α) >>= f = f a := rfl

@[simp] theorem except_error_bind {ε α β : Type} (e : ε) (f : α → Except ε β) :
    (Except.error e : Except ε α) >>= f = Except.error e := rfl

@[simp] theorem except_pure_eq_ok {ε α : Type} (a : α) :
    (pure a : Except ε α) = Except.ok a := rfl

theorem poll_go_step (responses : PollResponses) (timeout frt elapsed fuel : Nat)
    (h : ¬ isCompleteAt responses elapsed) :
    poll_answer_go responses timeout frt elapsed (fuel + 1) =
      poll_answer_go responses timeout frt (elapsed + 1) fuel := by
  unfold isCompleteAt at h
  conv_lhs => unfold poll_answer_go
  rw [if_neg h]

theorem poll_go_complete (responses : PollResponses) (timeout frt elapsed fuel : Nat)
    (h : isCompleteAt responses elapsed) :
    poll_answer_go responses timeout frt elapsed (fuel + 1) =
      .ok ((responses elapsed).2, frt, elapsed) := by
  unfold isCompleteAt at h
  conv_lhs => unfold poll_answer_go
  rw [if_pos h]

theorem poll_go_ok (responses : PollResponses) (timeout frt : Nat) :
    ∀ (j elapsed fuel : Nat), j < fuel →
    (∀ k, elapsed ≤ k → k < elapsed + j → ¬ isCompleteAt responses k) →
    isCompleteAt responses (elapsed + j) →
    poll_answer_go responses timeout frt elapsed fuel =
      .ok ((responses (elapsed + j)).2, frt, elapsed + j) := by
  intro j
  induction j with
  | zero =>
    intro elapsed fuel hlt _ hc
    match fuel, hlt with
    | fuel + 1, _ => exact poll_go_complete responses timeout frt elapsed fuel hc
  | succ n ih =>
    intro elapsed fuel hlt hnone hc
    match fuel, hlt with
    | fuel + 1, hlt =>
      rw [poll_go_step responses timeout frt elapsed fuel
        (hnone elapsed (Nat.le_refl _) (by omega))]
      have harith : elapsed + (n + 1) = (elapsed + 1) + n := by omega
      rw [harith] at hc ⊢
      exact ih (elapsed + 1) fuel (by omega)
        (fun k hk1 hk2 => hnone k (by omega) (by omega)) hc

theorem poll_go_timeout (responses : PollResponses) (timeout frt : Nat) :
    ∀ (fuel elapsed : Nat),
    (∀ k, elapsed ≤ k → k < elapsed + fuel → ¬ isCompleteAt responses k) →
    poll_answer_go responses timeout frt elapsed fuel =
      .error (.timeoutError
        ("Polling timed out after " ++ toString timeout ++ " seconds")) := by
  intro fuel
  induction fuel with
  | zero =>
    intro elapsed _
    rfl
  | succ n ih =>
    intro elapsed hnone
    rw [poll_go_step responses timeout frt elapsed n
      (hnone elapsed (Nat.le_refl _) (by omega))]
    exact ih (elapsed + 1) (fun k hk1 hk2 => hnone k (by omega) (by omega))

theorem poll_answer_ok (responses : PollResponses) (timeout frt j : Nat)
    (hj : j < timeout)
    (hnone : ∀ k, k < j → ¬ isCompleteAt responses k)
    (hc : isCompleteAt responses j) :
    poll_answer responses timeout frt = .ok ((responses j).2, frt, j) := by
  unfold poll_answer
  have h0 : (0 : Nat) + j = j := by omega
  have hmain := poll_go_ok responses timeout frt j 0 timeout hj
    (fun k hk1 hk2 => hnone k (by omega)) (by rw [h0]; exact hc)
  rw [h0] at hmain
  exact hmain

theorem poll_answer_timed_out (responses : PollResponses) (timeout frt : Nat)
    (hnone : ∀ k, k < timeout → ¬ isCompleteAt responses k) :
    poll_answer responses timeout frt =
      .error (.timeoutError
        ("Polling timed out after " ++ toString timeout ++ " seconds")) := by
  unfold poll_answer
  exact poll_go_timeout responses timeout frt timeout 0
    (fun k hk1 hk2 => hnone k (by omega))

theorem analyze_tier_first (s : String)
    (hguard : ¬(s = "" ∨ (pyStrip s).length < 10))
    (hvc : tierMatches very_complex_patterns (pyLower s) = true) :
    analyze_sql_complexity s = (8, "Very Complex SQL") := by
  unfold analyze_sql_complexity
  rw [if_neg hguard, if_pos hvc]

theorem analyze_tier_second (s : String)
    (hguard : ¬(s = "" ∨ (pyStrip s).length < 10))
    (hvc : tierMatches very_complex_patterns (pyLower s) = false)
    (hcx : tierMatches complex_patterns (pyLower s) = true) :
    analyze_sql_complexity s = (5, "Complex SQL") := by
  unfold analyze_sql_complexity
  rw [if_neg hguard, hvc]
  simp only [Bool.false_eq_true, if_false]
  rw [if_pos hcx]

theorem submit_go_counters (transport : Nat → HttpResp) :
    ∀ (fuel retries reauths requests : Nat), 0 < retries →
    ∃ d, d ≤ fuel ∧
      (submit_question_go transport fuel retries reauths requests).2.2.2 = requests + d ∧
      (submit_question_go transport fuel retries reauths requests).2.2.1 = reauths + d := by
  intro fuel
  induction fuel with
  | zero =>
    intro retries reauths requests _
    exact ⟨0, by omega, rfl, rfl⟩
  | succ n ih =>
    intro retries reauths requests hr
    unfold submit_question_go
    rw [if_pos hr]
    cases htr : transport requests with
    | ok id => exact ⟨1, by omega, rfl, rfl⟩
    | httpStatus code =>
      dsimp only
      by_cases hretry : retries + 1 ≤ max_retries
      · rw [if_pos hretry]
        obtain ⟨d, hd, hq, ha⟩ := ih (retries + 1) (reauths + 1) (requests + 1) (by omega)
        exact ⟨d + 1, by omega, by rw [hq]; omega, by rw [ha]; omega⟩
      · rw [if_neg hretry]
        exact ⟨1, by omega, rfl, rfl⟩
    | netError m =>
      dsimp only
      by_cases hretry : retries + 1 ≤ max_retries
      · rw [if_pos hretry]
        obtain ⟨d, hd, hq, ha⟩ := ih (retries + 1) (reauths + 1) (requests + 1) (by omega)
        exact ⟨d + 1, by omega, by rw [hq]; omega, by rw [ha]; omega⟩
      · rw [if_neg hretry]
        exact ⟨1, by omega, rfl, rfl⟩

theorem submit_run_counters (transport : Nat → HttpResp) :
    1 ≤ (submit_question_run transport).2.2.2 ∧
    (submit_question_run transport).2.2.2 ≤ max_retries + 1 ∧
    (submit_question_run transport).2.2.1 = (submit_question_run transport).2.2.2 - 1 := by
  have hm : max_retries = 3 := rfl
  unfold submit_question_run submit_question_go
  rw [if_neg (by omega : ¬ 0 < 0)]
  cases htr : transport 0 with
  | ok id =>
    dsimp only
    exact ⟨by omega, by omega, by omega⟩
  | httpStatus code =>
    dsimp only
    rw [if_pos (by omega : 0 + 1 ≤ max_retries)]
    obtain ⟨d, hd, hq, ha⟩ := submit_go_counters transport max_retries (0 + 1) 0 (0 + 1) (by omega)
    rw [hq, ha]
    omega
  | netError m =>
    dsimp only
    rw [if_pos (by omega : 0 + 1 ≤ max_retries)]
    obtain ⟨d, hd, hq, ha⟩ := submit_go_counters transport max_retries (0 + 1) 0 (0 + 1) (by omega)
    rw [hq, ha]
    omega

theorem extract_totality_no_answers (fields : List (String × JVal))
    (h : lookupKey "answers" fields = none) :
    extract_data_from_response (.obj fields) = .ok (.str "", .str "", .str "") := by
  simp [extract_data_from_response, pyIn, h]

theorem extract_totality_bare_answer (fields afields : List (String × JVal))
    (rest : List JVal)
    (h : lookupKey "answers" fields = some (.arr (.obj afields :: rest)))
    (h1 : lookupKey "sqlQueries" afields = none)
    (h2 : lookupKey "queries" afields = none)
    (h3 : lookupKey "insights" afields = none) :
    extract_data_from_response (.obj fields) = .ok (.str "", .str "", .str "") := by
  simp [extract_data_from_response, pyIn, pyGetKey, pyLen, pyIndexZero, h, h1, h2, h3]

theorem answer_text_no_answers (fields : List (String × JVal))
    (h : lookupKey "answers" fields = none) :
    answer_text_of (.obj fields) = .ok (.str "No answer provided") := by
  simp [answer_text_of, pyIn, h]

theorem answer_text_empty_answers (fields : List (String × JVal))
    (h : lookupKey "answers" fields = some (.arr [])) :
    answer_text_of (.obj fields) = .ok (.str "No answer provided") := by
  simp [answer_text_of, pyIn, pyGetKey, pyLen, h]

theorem answer_text_first_text (fields afields : List (String × JVal))
    (rest : List JVal) (t : JVal)
    (h : lookupKey "answers" fields = some (.arr (.obj afields :: rest)))
    (ht : lookupKey "text" afields = some t) :
    answer_text_of (.obj fields) = .ok t := by
  simp [answer_text_of, pyIn, pyGetKey, pyLen, pyIndexZero, h, ht]

theorem answer_text_missing_text_raises (fields afields : List (String × JVal))
    (rest : List JVal)
    (h : lookupKey "answers" fields = some (.arr (.obj afields :: rest)))
    (ht : lookupKey "text" afields = none) :
    answer_text_of (.obj fields) = .error (.exc "KeyError: text") := by
  simp [answer_text_of, pyIn, pyGetKey, pyLen, pyIndexZero, h, ht]

theorem run_queries_loop_fst (envs : Nat → QuestionEnv) :
    ∀ (l : List String) (i : Nat) (df : List ResultRow),
    (run_queries_loop envs l i df).1 = df ++ rowsFrom envs l i := by
  intro l
  induction l with
  | nil =>
    intro i df
    simp [run_queries_loop, rowsFrom]
  | cons q rest ih =>
    intro i df
    unfold run_queries_loop rowsFrom
    rw [ih]
    simp

theorem run_queries_loop_counts (envs : Nat → QuestionEnv) :
    ∀ (l : List String) (i : Nat) (df : List ResultRow),
    ((run_queries_loop envs l i df).2).map Prod.fst = List.range' (i + 1) l.length := by
  intro l
  induction l with
  | nil =>
    intro i df
    simp [run_queries_loop]
  | cons q rest ih =>
    intro i df
    unfold run_queries_loop
    dsimp only
    rw [List.length_cons, List.range'_succ]
    simp only [List.map_cons]
    rw [ih]

theorem rowsFrom_length (envs : Nat → QuestionEnv) :
    ∀ (l : List String) (i : Nat), (rowsFrom envs l i).length = l.length := by
  intro l
  induction l with
  | nil => intro i; rfl
  | cons q rest ih =>
    intro i
    unfold rowsFrom
    simp [ih]

theorem rowsFrom_getD (envs : Nat → QuestionEnv) :
    ∀ (l : List String) (i j : Nat), j < l.length →
    (rowsFrom envs l i).getD j (error_row "" "") =
      process_question (l.getD j "") (envs (i + j)) := by
  intro l
  induction l with
  | nil =>
    intro i j hj
    simp at hj
  | cons q rest ih =>
    intro i j hj
    cases j with
    | zero =>
      simp [rowsFrom]
    | succ n =>
      unfold rowsFrom
      simp only [List.getD_cons_succ]
      have harith : i + (n + 1) = (i + 1) + n := by omega
      rw [harith]
      exact ih (i + 1) n (by simpa using hj)

theorem chain_le_range'_append (m : Nat) :
    ∀ (n a : Nat), a + n ≤ m + 1 →
    List.Chain' (fun x y => x ≤ y) (List.range' a n ++ [m]) := by
  intro n
  induction n with
  | zero =>
    intro a _
    simp [List.chain'_singleton]
  | succ k ih =>
    intro a ha
    rw [List.range'_succ]
    rw [List.cons_append]
    rw [List.chain'_cons']
    constructor
    · intro y hy
      cases k with
      | zero =>
        simp at hy
        omega
      | succ k' =>
        rw [List.range'_succ] at hy
        simp at hy
        omega
    · exact ih (a + 1) (by omega)

theorem success_row_question (q : String) (payload : JVal) (frt trt : Nat)
    (row : ResultRow) (h : success_row q payload frt trt = .ok row) :
    row.question = q := by
  unfold success_row at h
  rcases hA : answer_text_of payload with eA | a <;> rw [hA] at h <;> simp at h
  rcases hB : extract_data_from_response payload with eB | b <;> rw [hB] at h <;> simp at h
  rcases hC : analyze_sql_complexity_jval b.2.1 with eC | c <;> rw [hC] at h <;> simp at h
  rw [← h]

theorem process_question_question (q : String) (env : QuestionEnv) :
    (process_question q env).question = q := by
  unfold process_question
  cases hqa : question_attempt q env with
  | ok row =>
    unfold question_attempt at hqa
    rcases hS : submit_question env.transport with eS | qid <;> rw [hS] at hqa <;>
      simp at hqa
    rcases hP : poll_answer env.responses poll_answer_default_timeout env.frt with eP | p <;>
      rw [hP] at hqa <;> simp at hqa
    exact success_row_question q p.1 p.2.1 p.2.2 row hqa
  | error e =>
    cases e with
    | timeoutError m => rfl
    | exc m => rfl

theorem process_question_timeout (q : String) (env : QuestionEnv) (m : String)
    (h : question_attempt q env = .error (.timeoutError m)) :
    process_question q env = timeout_row q := by
  unfold process_question
  rw [h]

theorem process_question_error (q : String) (env : QuestionEnv) (m : String)
    (h : question_attempt q env = .error (.exc m)) :
    process_question q env = error_row q m := by
  unfold process_question
  rw [h]

/-! ## Claim theorems -/

/-- C1: for every non-empty question list processed by `run_queries` with a
successful initial login, exactly one result row is appended per input
question (the table has one row per question, in order), whether the
question succeeds, errors, or times out; a per-question failure becomes a
row carrying an explanatory message in the answer column — the timeout
message distinct from the generic-error message — and processing continues
with the next question, never aborting the batch (the run always returns a
complete table). -/
theorem claim_C1_one_row_per_question :
    ∀ (qs : List String) (envs : Nat → QuestionEnv), qs ≠ [] →
    (run_queries true qs envs 0 []).isSome = true ∧
    (∀ df cps, run_queries true qs envs 0 [] = some (df, cps) →
      df.length = qs.length ∧
      (∀ j, j < qs.length →
        (df.getD j (error_row "" "")).question = qs.getD j "" ∧
        (∀ m, question_attempt (qs.getD j "") (envs j) = .error (.timeoutError m) →
          (df.getD j (error_row "" "")).answer =
            .str "TIMEOUT: Question processing exceeded 55 seconds" ∧
          (df.getD j (error_row "" "")).passFail = "Skip") ∧
        (∀ m, question_attempt (qs.getD j "") (envs j) = .error (.exc m) →
          (df.getD j (error_row "" "")).answer = .str ("ERROR: " ++ m) ∧
          (df.getD j (error_row "" "")).passFail = "Fail"))) := by
  intro qs envs _
  constructor
  · unfold run_queries
    rfl
  · intro df cps hrun
    unfold run_queries at hrun
    simp only [if_true] at hrun
    have hdf : df = (run_queries_loop envs (qs.drop 0) 0 []).1 := by
      cases hrun
      rfl
    have hrows : df = rowsFrom envs qs 0 := by
      rw [hdf, run_queries_loop_fst, List.drop_zero, List.nil_append]
    constructor
    · rw [hrows, rowsFrom_length]
    · intro j hj
      have hget : (df.getD j (error_row "" "")).question = qs.getD j "" ∧
          df.getD j (error_row "" "") = process_question (qs.getD j "") (envs j) := by
        rw [hrows, rowsFrom_getD envs qs 0 j hj]
        rw [Nat.zero_add]
        exact ⟨process_question_question _ _, rfl⟩
      refine ⟨hget.1, ?_, ?_⟩
      · intro m hm
        rw [hget.2, process_question_timeout _ _ m hm]
        exact ⟨rfl, rfl⟩
      · intro m hm
        rw [hget.2, process_question_error _ _ m hm]
        exact ⟨rfl, rfl⟩

/-- Witness for C1 at a concrete one-question batch whose question times
out: the run still returns a table. -/
theorem claim_C1_witness :
    (run_queries true ["a"] (fun _ => envTimeout) 0 []).isSome = true :=
  (claim_C1_one_row_per_question ["a"] (fun _ => envTimeout) (by simp)).1

/-- C2 counterexample: the claim says a non-202 non-success status while
polling is fatal for the identifier (a `PollError` ending the poll loop).
In the source the `HTTPError` raised by `raise_for_status` is caught by
the `except` clause of the polling loop, which logs and keeps polling:
with a 500 response at the first completion poll and a completed answer at
the next one, `poll_answer` returns the answer instead of failing. -/
theorem claim_C2_counterexample :
    (pollAfter500 0).1 = 500 ∧
    poll_answer pollAfter500 55 7 = .ok (sampleAnswerPayload, 7, 1) :=
  ⟨rfl, rfl⟩

/-- C2 amended: a 202 (or any other) response while polling is not an
error and polling simply continues; a non-success status is also not
fatal — its exception is caught and logged and polling continues — so the
loop returns the first completed answer inside the window no matter which
statuses preceded it; only the overall timeout ends the loop. -/
theorem claim_C2_amended :
    ∀ (responses : PollResponses) (timeout frt j : Nat), j < timeout →
    (∀ k, k < j → ¬ isCompleteAt responses k) →
    isCompleteAt responses j →
    poll_answer responses timeout frt = .ok ((responses j).2, frt, j) :=
  fun responses timeout frt j hj hnone hc =>
    poll_answer_ok responses timeout frt j hj hnone hc

/-- Witness for C2 amended: the 500-then-complete schedule. -/
theorem claim_C2_amended_witness :
    poll_answer pollAfter500 55 7 = .ok ((pollAfter500 1).2, 7, 1) :=
  claim_C2_amended pollAfter500 55 7 1 (by decide) (by decide) (by decide)

/-- C3 counterexample: the poller's overall timeout defaults to 55
seconds, not 300: an answer that becomes ready 100 seconds in — well
inside the claimed 300-second default window — times out under the actual
default, while an explicit 300-second timeout would return it. -/
theorem claim_C3_counterexample :
    poll_answer_default_timeout = 55 ∧
    poll_answer pollReadyAt100 poll_answer_default_timeout 0 =
      .error (.timeoutError "Polling timed out after 55 seconds") ∧
    poll_answer pollReadyAt100 300 0 = .ok (sampleAnswerPayload, 0, 100) :=
  ⟨rfl, rfl, rfl⟩

/-- C3 amended: the poller's overall timeout defaults to 55 seconds
(configurable through the `timeout` parameter), and when no payload with
non-empty answer text is observed within the window it raises a
`TimeoutError`. -/
theorem claim_C3_amended :
    poll_answer_default_timeout = 55 ∧
    ∀ (responses : PollResponses) (timeout frt : Nat),
    (∀ k, k < timeout → ¬ isCompleteAt responses k) →
    poll_answer responses timeout frt =
      .error (.timeoutError
        ("Polling timed out after " ++ toString timeout ++ " seconds")) :=
  ⟨rfl, poll_answer_timed_out⟩

/-- Witness for C3 amended: a schedule that never completes times out. -/
theorem claim_C3_amended_witness :
    poll_answer (fun _ => (202, .obj [])) 3 0 =
      .error (.timeoutError
        ("Polling timed out after " ++ toString 3 ++ " seconds")) :=
  claim_C3_amended.2 (fun _ => (202, .obj [])) 3 0 (by decide)

/-- C4 counterexample: a 401 on the first submit attempt does count as a
retry (the retry counter ends at 1 after the immediate re-login and
resubmission succeed), and four consecutive 401 responses receive only
three re-authentications and three retried requests — the last 401 gets
none — so neither "does not count as a retry" nor "every 401 gets exactly
one re-authentication followed by one retried request" holds.  (During
polling the source performs no re-authentication at all on a 401; the
poll loop model contains no re-login call.) -/
theorem claim_C4_counterexample :
    submit_question_run (fun n => if n == 0 then .httpStatus 401 else .ok "q-1") =
      (.ok "q-1", 1, 1, 2) ∧
    submit_question_run (fun _ => .httpStatus 401) =
      (.error (.exc "HTTPError"), 4, 3, 4) :=
  ⟨rfl, rfl⟩

/-- C4 amended: the submit loop is bounded — for any transport it sends
between 1 and `max_retries + 1` requests, and performs exactly one
re-authentication before each request after the first (so
re-authentications = requests − 1); a 401 on the first attempt is counted
as a retry and answered by one re-login before the resubmission. -/
theorem claim_C4_amended :
    ∀ transport : Nat → HttpResp,
    1 ≤ (submit_question_run transport).2.2.2 ∧
    (submit_question_run transport).2.2.2 ≤ max_retries + 1 ∧
    (submit_question_run transport).2.2.1 = (submit_question_run transport).2.2.2 - 1 :=
  fun transport => submit_run_counters transport

/-- C5: the complexity classifier is deterministic (a pure function of
the SQL text), returns (0.5, "No SQL") on every empty or
sub-10-character input, the pinned values on the four pinned inputs, and
tests the tiers in strict priority order: whenever the very-complex tier
matches, it wins regardless of lower tiers, and whenever it does not but
the complex tier matches, the complex tier wins. -/
theorem claim_C5_classifier_pinned_and_priority :
    (∀ s : String, (s = "" ∨ (pyStrip s).length < 10) →
      analyze_sql_complexity s = (1/2, "No SQL")) ∧
    analyze_sql_complexity "" = (1/2, "No SQL") ∧
    analyze_sql_complexity "SELECT * FROM t WHERE x=1" = (3, "Simple SQL") ∧
    analyze_sql_complexity "SELECT a, SUM(b) FROM t JOIN u ON ... GROUP BY a" =
      (5, "Complex SQL") ∧
    analyze_sql_complexity "WITH c AS (SELECT ...) SELECT * FROM c" =
      (8, "Very Complex SQL") ∧
    (∀ s : String, ¬(s = "" ∨ (pyStrip s).length < 10) →
      tierMatches very_complex_patterns (pyLower s) = true →
      analyze_sql_complexity s = (8, "Very Complex SQL")) ∧
    (∀ s : String, ¬(s = "" ∨ (pyStrip s).length < 10) →
      tierMatches very_complex_patterns (pyLower s) = false →
      tierMatches complex_patterns (pyLower s) = true →
      analyze_sql_complexity s = (5, "Complex SQL")) := by
  refine ⟨?_, rfl, rfl, rfl, rfl, analyze_tier_first, analyze_tier_second⟩
  intro s h
  unfold analyze_sql_complexity
  rw [if_pos h]

/-- Witness for C5: the quantified parts applied at concrete inputs. -/
theorem claim_C5_witness :
    analyze_sql_complexity "   tiny   " = (1/2, "No SQL") ∧
    analyze_sql_complexity "WITH c AS (SELECT ...) SELECT * FROM c" =
      (8, "Very Complex SQL") ∧
    analyze_sql_complexity "SELECT a, SUM(b) FROM t JOIN u ON ... GROUP BY a" =
      (5, "Complex SQL") :=
  ⟨claim_C5_classifier_pinned_and_priority.1 "   tiny   " (by decide),
   claim_C5_classifier_pinned_and_priority.2.2.2.2.2.1
     "WITH c AS (SELECT ...) SELECT * FROM c" (by decide) (by rfl),
   claim_C5_classifier_pinned_and_priority.2.2.2.2.2.2
     "SELECT a, SUM(b) FROM t JOIN u ON ... GROUP BY a" (by decide) (by rfl) (by rfl)⟩

/-- C6: the response extractor is total on mappings lacking the
`answers`, `sqlQueries`, `queries`, or `insights` keys (in any
combination): it returns empty-string defaults for interpretation, sql,
and insights without raising. -/
theorem claim_C6_extractor_totality :
    (∀ fields : List (String × JVal), lookupKey "answers" fields = none →
      extract_data_from_response (.obj fields) = .ok (.str "", .str "", .str "")) ∧
    (∀ (fields afields : List (String × JVal)) (rest : List JVal),
      lookupKey "answers" fields = some (.arr (.obj afields :: rest)) →
      lookupKey "sqlQueries" afields = none →
      lookupKey "queries" afields = none →
      lookupKey "insights" afields = none →
      extract_data_from_response (.obj fields) = .ok (.str "", .str "", .str "")) :=
  ⟨extract_totality_no_answers, extract_totality_bare_answer⟩

/-- Witness for C6: a mapping without `answers`, and a mapping whose
first answer carries none of the three inner keys. -/
theorem claim_C6_witness :
    extract_data_from_response (.obj [("status", .str "ok")]) =
      .ok (.str "", .str "", .str "") ∧
    extract_data_from_response (.obj [("answers", .arr [.obj [("foo", .null)]])]) =
      .ok (.str "", .str "", .str "") :=
  ⟨claim_C6_extractor_totality.1 [("status", .str "ok")] rfl,
   claim_C6_extractor_totality.2 [("answers", .arr [.obj [("foo", .null)]])]
     [("foo", .null)] [] rfl rfl rfl rfl⟩

/-- C7 counterexample: when `answers` is present and non-empty but its
first element has no `text` key, the answer-text expression does not
return the sentinel — it raises a `KeyError`. -/
theorem claim_C7_counterexample :
    answer_text_of (.obj [("answers", .arr [.obj []])]) =
      .error (.exc "KeyError: text") := rfl

/-- C7 amended: the extracted answer text equals the first answer's
`text` field when `answers` is non-empty and the field is present; the
sentinel (spelled "No answer provided") is returned exactly when the
`answers` key is absent or the list is empty; when the first answer lacks
`text` the expression raises a `KeyError` (which the orchestrator's
generic handler turns into an error row). -/
theorem claim_C7_amended :
    (∀ fields : List (String × JVal), lookupKey "answers" fields = none →
      answer_text_of (.obj fields) = .ok (.str "No answer provided")) ∧
    (∀ fields : List (String × JVal),
      lookupKey "answers" fields = some (.arr []) →
      answer_text_of (.obj fields) = .ok (.str "No answer provided")) ∧
    (∀ (fields afields : List (String × JVal)) (rest : List JVal) (t : JVal),
      lookupKey "answers" fields = some (.arr (.obj afields :: rest)) →
      lookupKey "text" afields = some t →
      answer_text_of (.obj fields) = .ok t) ∧
    (∀ (fields afields : List (String × JVal)) (rest : List JVal),
      lookupKey "answers" fields = some (.arr (.obj afields :: rest)) →
      lookupKey "text" afields = none →
      answer_text_of (.obj fields) = .error (.exc "KeyError: text")) :=
  ⟨answer_text_no_answers, answer_text_empty_answers,
   answer_text_first_text, answer_text_missing_text_raises⟩

/-- Witness for C7 amended: sentinel without `answers`, and the `text`
field of a populated payload. -/
theorem claim_C7_amended_witness :
    answer_text_of (.obj [("status", .str "ok")]) =
      .ok (.str "No answer provided") ∧
    answer_text_of (.obj [("answers", .arr [.obj [("text", .str "hi there")]])]) =
      .ok (.str "hi there") :=
  ⟨claim_C7_amended.1 [("status", .str "ok")] rfl,
   claim_C7_amended.2.2.1 [("answers", .arr [.obj [("text", .str "hi there")]])]
     [("text", .str "hi there")] [] (.str "hi there") rfl rfl⟩

/-- C8: within a single `run_queries` run the processed-question count
recorded by `save_checkpoint` never decreases, and a checkpoint is
persisted after every completed question: the recorded counts are exactly
`start+1, …, total` followed by the final `save_checkpoint(total, df)` of
the `finally` block, a non-decreasing sequence. -/
theorem claim_C8_checkpoints :
    ∀ (login_ok : Bool) (qs : List String) (envs : Nat → QuestionEnv)
      (start : Nat) (init df : List ResultRow)
      (cps : List (Nat × List ResultRow)),
    run_queries login_ok qs envs start init = some (df, cps) →
    cps.map Prod.fst =
      List.range' (start + 1) (qs.length - start) ++ [qs.length] ∧
    List.Chain' (fun a b => a ≤ b) (cps.map Prod.fst) := by
  intro login qs envs start init df cps hrun
  cases login with
  | false => simp [run_queries] at hrun
  | true =>
    unfold run_queries at hrun
    simp only [if_true] at hrun
    have hcps : cps = (run_queries_loop envs (qs.drop start) start init).2 ++
        [(qs.length, (run_queries_loop envs (qs.drop start) start init).1)] := by
      cases hrun
      rfl
    have hcounts : cps.map Prod.fst =
        List.range' (start + 1) (qs.length - start) ++ [qs.length] := by
      rw [hcps, List.map_append, run_queries_loop_counts, List.length_drop]
      rfl
    refine ⟨hcounts, ?_⟩
    rw [hcounts]
    by_cases hsl : start ≤ qs.length
    · exact chain_le_range'_append qs.length (qs.length - start) (start + 1) (by omega)
    · have hz : qs.length - start = 0 := by omega
      rw [hz]
      simp [List.chain'_singleton]

/-- Witness for C8: a concrete two-question run; the checkpoint counts
1, 2, 2 are non-decreasing. -/
theorem claim_C8_witness :
    List.Chain' (fun a b => a ≤ b) (List.map Prod.fst
      [(1, [timeout_row "a"]), (2, [timeout_row "a", timeout_row "b"]),
       (2, [timeout_row "a", timeout_row "b"])]) :=
  (claim_C8_checkpoints true ["a", "b"] (fun _ => envTimeout) 0 []
    [timeout_row "a", timeout_row "b"]
    [(1, [timeout_row "a"]), (2, [timeout_row "a", timeout_row "b"]),
     (2, [timeout_row "a", timeout_row "b"])] rfl).2

/-- C9 counterexample: the classifier is not case-insensitive on every
input.  Python `str.lower` maps U+0130 to the two characters `i`, U+0307,
so U+0130 followed by eight `X` has stripped length 9 — classified
(0.5, "No SQL") — while its lowercase form has stripped length 10 and
falls through the pattern tiers to (3.0, "Simple SQL"). -/
theorem claim_C9_counterexample :
    analyze_sql_complexity dottedIsample = (1/2, "No SQL") ∧
    analyze_sql_complexity (pyLower dottedIsample) = (3, "Simple SQL") ∧
    analyze_sql_complexity dottedIsample ≠
      analyze_sql_complexity (pyLower dottedIsample) := by
  refine ⟨rfl, rfl, ?_⟩
  intro hcontra
  have h1 : analyze_sql_complexity dottedIsample = (1/2, "No SQL") := rfl
  have h2 : analyze_sql_complexity (pyLower dottedIsample) = (3, "Simple SQL") := rfl
  rw [h1, h2] at hcontra
  have hs : ("No SQL" : String) = "Simple SQL" := congrArg Prod.snd hcontra
  exact absurd hs (by decide)

/-- C9 amended: the complexity classifier is case-insensitive on every
all-ASCII input — for such strings `analyze_sql_complexity` agrees with
itself on the lowercase form (the source lowercases the text before
matching, and on ASCII the length guard is insensitive to case).  On
general Unicode input the property fails, because `str.lower` can change
the length of the string across the ten-character guard. -/
theorem claim_C9_amended (s : String) (h : isAsciiOnly s = true) :
    analyze_sql_complexity s = analyze_sql_complexity (pyLower s) := by
  have hmap : pyLower s = String.mk (s.data.map Char.toLower) :=
    pyLower_of_ascii s h
  unfold analyze_sql_complexity
  rw [hmap]
  have hascii2 : isAsciiOnly (String.mk (s.data.map Char.toLower)) = true :=
    map_toLower_ascii s.data h
  rw [pyLower_of_ascii _ hascii2]
  have hidem : (s.data.map Char.toLower).map Char.toLower =
      s.data.map Char.toLower := by
    rw [List.map_map]
    apply List.map_congr_left
    intro c _
    exact toLower_idem c
  rw [hidem]
  have hlen : (pyStrip (String.mk (s.data.map Char.toLower))).length =
      (pyStrip s).length := by
    show (pyStripList (s.data.map Char.toLower)).length =
      (pyStripList s.data).length
    rw [pyStripList_map_toLower, List.length_map]
  rw [hlen]
  have hempty : String.mk (s.data.map Char.toLower) = "" ↔ s = "" := by
    constructor
    · intro he
      have hd : (String.mk (s.data.map Char.toLower)).data = [] := by rw [he]
      have hnil : s.data = [] := List.map_eq_nil_iff.mp hd
      cases s
      simp_all
    · intro he
      rw [he]
      rfl
  exact if_congr (or_congr hempty.symm Iff.rfl) rfl rfl

/-- Witness for C9 amended: an all-ASCII input on which the classifier
agrees with its lowercased form. -/
theorem claim_C9_amended_witness :
    analyze_sql_complexity "SELECT * FROM t WHERE x=1" =
      analyze_sql_complexity (pyLower "SELECT * FROM t WHERE x=1") :=
  claim_C9_amended "SELECT * FROM t WHERE x=1" (by decide)

/-- C10: a question whose processing raises `TimeoutError` is recorded
with the constant 55 in all three time columns and `Skip` in Pass/Fail,
regardless of the environment; a question failing with a generic error is
recorded with 0 in all three time columns and `Fail` in Pass/Fail. -/
theorem claim_C10_row_constants :
    (∀ (q : String) (env : QuestionEnv) (m : String),
      question_attempt q env = .error (.timeoutError m) →
      (process_question q env).api_response_time = 55 ∧
      (process_question q env).total_response_time = 55 ∧
      (process_question q env).estimated_first_response = 55 ∧
      (process_question q env).passFail = "Skip") ∧
    (∀ (q : String) (env : QuestionEnv) (m : String),
      question_attempt q env = .error (.exc m) →
      (process_question q env).api_response_time = 0 ∧
      (process_question q env).total_response_time = 0 ∧
      (process_question q env).estimated_first_response = 0 ∧
      (process_question q env).passFail = "Fail") := by
  constructor
  · intro q env m h
    rw [process_question_timeout q env m h]
    exact ⟨rfl, rfl, rfl, rfl⟩
  · intro q env m h
    rw [process_question_error q env m h]
    exact ⟨rfl, rfl, rfl, rfl⟩

/-- Witness for C10: a concrete timing-out environment and a concrete
erroring environment. -/
theorem claim_C10_witness :
    (process_question "q" envTimeout).passFail = "Skip" ∧
    (process_question "q" envTimeout).api_response_time = 55 ∧
    (process_question "q" envError).passFail = "Fail" ∧
    (process_question "q" envError).api_response_time = 0 := by
  have h1 := claim_C10_row_constants.1 "q" envTimeout
    "Polling timed out after 55 seconds" (by rfl)
  have h2 := claim_C10_row_constants.2 "q" envError
    "Error submitting question after 4 attempts: boom" (by rfl)
  exact ⟨h1.2.2.2, h1.1, h2.2.2.2, h2.1⟩
